import Mathlib

/-!
Verification of the command-to-mutation-to-event pipeline of the blogs
microservice (users and posts entity services).

The embedding translates `src/modules/users/users.service.ts` and
`src/modules/posts/posts.service.ts` into pure Lean functions.  The
asynchronous call graph of each service method is sequential (every
store/bus call is `await`ed), so each method becomes a function from a
fault environment (which store/bus calls fail) and a store state to an
outcome record: the returned value or thrown exception, the post-call
store state, the trace of store-adapter calls issued, and the list of
events successfully delivered to the message bus.
-/

namespace BlogsMS

/-- The service error taxonomy: `ResourceNotFoundException`,
`InvalidInputException` and `UnexpectedErrorException` from
`src/common/exceptions`, each carrying its message string. -/
inductive Err where
  | notFound (msg : String)
  | invalidInput (msg : String)
  | unexpected (msg : String)
deriving Repr, DecidableEq

/-- Fault environment: which of the two kinds of I/O calls fail during a
run.  `storeWriteFails` makes every store write-path call throw a
storage error; `publishFails` makes every `blogsClient.emit` (awaited
via `lastValueFrom`) throw.  Reads are taken to succeed: the claims are
about write and publish failures. -/
structure FaultEnv where
  storeWriteFails : Bool
  publishFails : Bool
deriving Repr, DecidableEq

/-- `UserRole` enum of `create-user.dto.ts` (not under `src/`; modelled
from the spec's password-bearing user entity, default role USER).  Every
enum value is a non-empty string in the source, so none is falsy. -/
inductive UserRole where
  | admin
  | user
deriving Repr, DecidableEq

/-- User document: the fields of the user schema that the service logic
reads or writes (schema file not under `src/`; fields taken from their
uses in `users.service.ts` and the spec's data model). -/
structure User where
  id : Nat
  email : String
  password : String
  role : UserRole
  isActive : Bool
  isEmailVerified : Bool
deriving Repr, DecidableEq

/-- `CreateUserDto`: email and password required; role, isActive,
isEmailVerified optional (the service supplies defaults). -/
structure CreateUserDto where
  email : String
  password : String
  role : Option UserRole
  isActive : Option Bool
  isEmailVerified : Option Bool
deriving Repr, DecidableEq

/-- `Partial<User>` as passed to `updateUser`: every field optional; a
missing field is absent from the `$set` document. -/
structure UserPatch where
  email : Option String
  password : Option String
  role : Option UserRole
  isActive : Option Bool
  isEmailVerified : Option Bool
deriving Repr, DecidableEq

/-- Store-adapter calls issued by the users service, in order.  The
write path consists of `save`, `findByIdAndUpdate` and
`findByIdAndDelete`. -/
inductive UserStoreCall where
  | findOneByEmail (email : String)
  | findById (id : Nat)
  | save
  | findByIdAndUpdate (id : Nat)
  | findByIdAndDelete (id : Nat)
deriving Repr, DecidableEq

def UserStoreCall.isWrite : UserStoreCall → Bool
  | .save => true
  | .findByIdAndUpdate _ => true
  | .findByIdAndDelete _ => true
  | _ => false

/-- The users collection: a list of documents plus the next identifier
the store will assign (identifiers are store-assigned, opaque). -/
structure UsersState where
  users : List User
  nextId : Nat
deriving Repr, DecidableEq

/-- Event payload shape: full entity for create/update, identifier
envelope for delete. -/
inductive UsersEventPayload where
  | entity (u : User)
  | idOnly (id : Nat)
deriving Repr, DecidableEq

/-- Outcome of one users-service method call: the value returned or the
exception thrown, the store state afterwards, the store calls issued,
and the events successfully delivered to the bus. -/
structure UsersOutcome (α : Type) where
  result : Except Err α
  state : UsersState
  trace : List UserStoreCall
  events : List (String × UsersEventPayload)
deriving Repr

/-- Modelled from the spec: `bcryptjs` is an external library.  The spec
requires a one-way salted hash; the model tags the input so that the
hash of a plaintext is never equal to that plaintext (the lengths
differ), which is the property the claims use. -/
def bcryptHash (plain : String) : String :=
  "$2b$10$" ++ plain

/-- `bcrypt.compare(plain, hashed)`: succeeds exactly when `hashed` is
the hash of `plain`. -/
def bcryptCompare (plain hashed : String) : Bool :=
  bcryptHash plain == hashed

/-- `userModel.findOne({ email })`: first document with that email. -/
def findByEmail (s : UsersState) (email : String) : Option User :=
  s.users.find? (fun u => u.email == email)

/-- `userModel.findById(id)`. -/
def findById (s : UsersState) (id : Nat) : Option User :=
  s.users.find? (fun u => u.id == id)

namespace UsersService

/-- `UsersService.createUser` (users.service.ts:32-58): uniqueness check
on email via `findUserByEmail`, then hash the password and `save` a
document with defaulted role/isActive/isEmailVerified.  `role ||
UserRole.USER` coincides with `Option.getD` because every `UserRole`
value is a non-empty (truthy) string; `?? true` / `?? false` are
`Option.getD`.  A storage failure in `save` is caught and rethrown as
`Unexpected`.  The users service holds no event publisher, so `events`
is always empty. -/
def createUser (env : FaultEnv) (s : UsersState) (dto : CreateUserDto) :
    UsersOutcome User :=
  match findByEmail s dto.email with
  | some _ =>
      { result := .error (.invalidInput "Email already exists")
        state := s
        trace := [.findOneByEmail dto.email]
        events := [] }
  | none =>
      if env.storeWriteFails then
        { result := .error (.unexpected "Error creating user")
          state := s
          trace := [.findOneByEmail dto.email, .save]
          events := [] }
      else
        let u : User :=
          { id := s.nextId
            email := dto.email
            password := bcryptHash dto.password
            role := dto.role.getD UserRole.user
            isActive := dto.isActive.getD true
            isEmailVerified := dto.isEmailVerified.getD false }
        { result := .ok u
          state := { users := s.users ++ [u], nextId := s.nextId + 1 }
          trace := [.findOneByEmail dto.email, .save]
          events := [] }

/-- `findUserById` (users.service.ts:79-92): absence becomes
`ResourceNotFoundException`. -/
def findUserById (s : UsersState) (id : Nat) : Except Err User :=
  match findById s id with
  | none => .error (.notFound "User not found")
  | some u => .ok u

/-- `$set: updateUserDto` applied to a document: every present patch
field overwrites the stored field verbatim — in particular a present
`password` field is stored as given, with no hashing on the update
path. -/
def applyPatch (u : User) (p : UserPatch) : User :=
  { id := u.id
    email := p.email.getD u.email
    password := p.password.getD u.password
    role := p.role.getD u.role
    isActive := p.isActive.getD u.isActive
    isEmailVerified := p.isEmailVerified.getD u.isEmailVerified }

/-- The `findByIdAndUpdate` step of `updateUser`, after the existence
and uniqueness checks passed (trace so far in `tr`).  In this sequential
model the update cannot miss a document that `findById` just found, so
the `"User not found after update"` branch (users.service.ts:130-132) is
unreachable and not represented. -/
def performUpdate (env : FaultEnv) (s : UsersState) (id : Nat)
    (p : UserPatch) (tr : List UserStoreCall) (existing : User) :
    UsersOutcome User :=
  if env.storeWriteFails then
    { result := .error (.unexpected "Error updating user: storage error")
      state := s
      trace := tr ++ [.findByIdAndUpdate id]
      events := [] }
  else
    let u := applyPatch existing p
    { result := .ok u
      state := { users := s.users.map (fun v => if v.id == id then u else v)
                 nextId := s.nextId }
      trace := tr ++ [.findByIdAndUpdate id]
      events := [] }

/-- `UsersService.updateUser` (users.service.ts:101-143): existence
check first; then `if (updateUserDto.email && updateUserDto.email !==
existingUser.email)` — the new email triggers the uniqueness lookup only
when it is truthy (present and non-empty) and differs from the target's
current email; then `findByIdAndUpdate` with `$set`. -/
def updateUser (env : FaultEnv) (s : UsersState) (id : Nat)
    (p : UserPatch) : UsersOutcome User :=
  match findById s id with
  | none =>
      { result := .error (.notFound "User not found")
        state := s
        trace := [.findById id]
        events := [] }
  | some existing =>
      match p.email with
      | some e =>
          if e != "" && e != existing.email then
            match findByEmail s e with
            | some _ =>
                { result := .error (.invalidInput "Email already exists")
                  state := s
                  trace := [.findById id, .findOneByEmail e]
                  events := [] }
            | none =>
                performUpdate env s id p [.findById id, .findOneByEmail e] existing
          else
            performUpdate env s id p [.findById id] existing
      | none =>
          performUpdate env s id p [.findById id] existing

/-- `UsersService.deleteUser` (users.service.ts:150-162): a single
`findByIdAndDelete` call — a combined write-path operation — whose null
result is then translated to `ResourceNotFoundException`; there is no
prior existence check.  A storage failure throws before the null check
and becomes `Unexpected`. -/
def deleteUser (env : FaultEnv) (s : UsersState) (id : Nat) :
    UsersOutcome Unit :=
  if env.storeWriteFails then
    { result := .error (.unexpected "Error deleting user")
      state := s
      trace := [.findByIdAndDelete id]
      events := [] }
  else
    match findById s id with
    | none =>
        { result := .error (.notFound "User not found")
          state := s
          trace := [.findByIdAndDelete id]
          events := [] }
    | some _ =>
        { result := .ok ()
          state := { users := s.users.filter (fun u => u.id != id)
                     nextId := s.nextId }
          trace := [.findByIdAndDelete id]
          events := [] }

/-- `validateUserCredentials` (users.service.ts:171-190): absent email
and failed `bcrypt.compare` both throw the same
`InvalidInputException("Invalid credentials")`. -/
def validateUserCredentials (s : UsersState) (email pw : String) :
    Except Err User :=
  match findByEmail s email with
  | none => .error (.invalidInput "Invalid credentials")
  | some u =>
      if bcryptCompare pw u.password then .ok u
      else .error (.invalidInput "Invalid credentials")

end UsersService

/-- Post document (schema file not under `src/`; fields taken from the
spec's generic entity shape and their uses in `posts.service.ts`). -/
structure Post where
  id : Nat
  title : String
  content : String
deriving Repr, DecidableEq

/-- `CreatePostDto` (not under `src/`): the creation fields. -/
structure CreatePostDto where
  title : String
  content : String
deriving Repr, DecidableEq

/-- `UpdatePostDto` (not under `src/`): a partial patch. -/
structure UpdatePostDto where
  title : Option String
  content : Option String
deriving Repr, DecidableEq

/-- Repository calls issued by the posts service, in order.  The write
path consists of `create`, `findOneAndUpdate` and `deleteOne`. -/
inductive PostStoreCall where
  | findOneById (id : Nat)
  | create
  | findOneAndUpdate (id : Nat)
  | deleteOne (id : Nat)
deriving Repr, DecidableEq

def PostStoreCall.isWrite : PostStoreCall → Bool
  | .create => true
  | .findOneAndUpdate _ => true
  | .deleteOne _ => true
  | _ => false

/-- The posts collection plus the next store-assigned identifier. -/
structure PostsState where
  posts : List Post
  nextId : Nat
deriving Repr, DecidableEq

/-- Event payload shape for post events: full entity for
create/update, `{ id }` for delete. -/
inductive PostEventPayload where
  | entity (p : Post)
  | idOnly (id : Nat)
deriving Repr, DecidableEq

/-- Outcome of one posts-service method call. -/
structure PostsOutcome (α : Type) where
  result : Except Err α
  state : PostsState
  trace : List PostStoreCall
  events : List (String × PostEventPayload)
deriving Repr

/-- Modelled from the spec: `PostsRepository.findOne` is not under
`src/`.  Per §4.1 `findOne(filter) → Entity | NotFound` signals normal
absence as a value, not an exception — consistent with the null checks
its callers in `posts.service.ts` perform on its result. -/
def repoFindOne (s : PostsState) (id : Nat) : Option Post :=
  s.posts.find? (fun p => p.id == id)

namespace PostsService

/-- `PostsService.createPost` (posts.service.ts:36-45):
`postsRepository.create`, then `await lastValueFrom(emit('post_created',
post))`, both inside one `try`.  Either failure lands in the catch-all,
which rethrows `UnexpectedErrorException("Error creating post")`; a
publish failure occurs after the repository write has committed, so the
state keeps the new post even though the command throws. -/
def createPost (env : FaultEnv) (s : PostsState) (dto : CreatePostDto) :
    PostsOutcome Post :=
  if env.storeWriteFails then
    { result := .error (.unexpected "Error creating post")
      state := s
      trace := [.create]
      events := [] }
  else
    let p : Post := { id := s.nextId, title := dto.title, content := dto.content }
    let s' : PostsState := { posts := s.posts ++ [p], nextId := s.nextId + 1 }
    if env.publishFails then
      { result := .error (.unexpected "Error creating post")
        state := s'
        trace := [.create]
        events := [] }
    else
      { result := .ok p
        state := s'
        trace := [.create]
        events := [("post_created", .entity p)] }

/-- `PostsService.findPostById` (posts.service.ts:53-61): returns the
repository's `findOne` result as-is — including its absence value —
with no null check and no translation to `ResourceNotFoundException`. -/
def findPostById (s : PostsState) (id : Nat) : Except Err (Option Post) :=
  .ok (repoFindOne s id)

/-- `$set: updatePostDto` applied to a post document. -/
def applyPostPatch (p : Post) (dto : UpdatePostDto) : Post :=
  { id := p.id
    title := dto.title.getD p.title
    content := dto.content.getD p.content }

/-- `PostsService.updatePost` (posts.service.ts:70-96): existence check
via `findOne`, `findOneAndUpdate`, then `emit('post_updated',
updatedPost)` — all in one `try` whose catch rethrows
`ResourceNotFoundException` verbatim and wraps anything else (including
a publish failure after the committed write) into `Unexpected`. -/
def updatePost (env : FaultEnv) (s : PostsState) (id : Nat)
    (dto : UpdatePostDto) : PostsOutcome Post :=
  match repoFindOne s id with
  | none =>
      { result := .error (.notFound "Post not found")
        state := s
        trace := [.findOneById id]
        events := [] }
  | some existing =>
      if env.storeWriteFails then
        { result := .error (.unexpected "Error updating post")
          state := s
          trace := [.findOneById id, .findOneAndUpdate id]
          events := [] }
      else
        let p := applyPostPatch existing dto
        let s' : PostsState :=
          { posts := s.posts.map (fun q => if q.id == id then p else q)
            nextId := s.nextId }
        if env.publishFails then
          { result := .error (.unexpected "Error updating post")
            state := s'
            trace := [.findOneById id, .findOneAndUpdate id]
            events := [] }
        else
          { result := .ok p
            state := s'
            trace := [.findOneById id, .findOneAndUpdate id]
            events := [("post_updated", .entity p)] }

/-- `PostsService.deletePost` (posts.service.ts:103-128): existence
check via `findOne` (absence → `ResourceNotFoundException("Post")`),
`deleteOne`, then `emit('post_deleted', { id })` — the catch rethrows a
fresh `ResourceNotFoundException("Post")` for not-found and wraps
anything else (including a publish failure after the committed delete)
into `Unexpected`. -/
def deletePost (env : FaultEnv) (s : PostsState) (id : Nat) :
    PostsOutcome Unit :=
  match repoFindOne s id with
  | none =>
      { result := .error (.notFound "Post")
        state := s
        trace := [.findOneById id]
        events := [] }
  | some _ =>
      if env.storeWriteFails then
        { result := .error (.unexpected "Error deleting post")
          state := s
          trace := [.findOneById id, .deleteOne id]
          events := [] }
      else
        let s' : PostsState :=
          { posts := s.posts.filter (fun q => q.id != id)
            nextId := s.nextId }
        if env.publishFails then
          { result := .error (.unexpected "Error deleting post")
            state := s'
            trace := [.findOneById id, .deleteOne id]
            events := [] }
        else
          { result := .ok ()
            state := s'
            trace := [.findOneById id, .deleteOne id]
            events := [("post_deleted", .idOnly id)] }

end PostsService

/-! Concrete fixtures used by counterexamples and witnesses. -/

/-- Environment with no faults. -/
def envOk : FaultEnv := ⟨false, false⟩

/-- Environment where every store call succeeds but the bus publish
fails. -/
def envPubFail : FaultEnv := ⟨false, true⟩

def postS0 : PostsState := ⟨[], 1⟩

def dtoP0 : CreatePostDto := ⟨"t", "c"⟩

def postP0 : Post := ⟨1, "t", "c"⟩

def postS1 : PostsState := ⟨[postP0], 2⟩

def userS0 : UsersState := ⟨[], 1⟩

def dtoU0 : CreateUserDto := ⟨"a@x.com", "p", none, none, none⟩

def uA : User := ⟨1, "a@x.com", bcryptHash "p", .user, true, false⟩

def uB : User := ⟨2, "", bcryptHash "q", .user, true, false⟩

def usA : UsersState := ⟨[uA], 2⟩

def usAB : UsersState := ⟨[uA, uB], 3⟩

/-! Helper lemmas shared by several claims: the users service has no
event publisher, so every users outcome has an empty event list; and
`performUpdate` appends exactly the `findByIdAndUpdate` call. -/

theorem performUpdate_events (env : FaultEnv) (s : UsersState) (id : Nat)
    (p : UserPatch) (tr : List UserStoreCall) (existing : User) :
    (UsersService.performUpdate env s id p tr existing).events = [] := by
  unfold UsersService.performUpdate
  split <;> rfl

theorem performUpdate_trace (env : FaultEnv) (s : UsersState) (id : Nat)
    (p : UserPatch) (tr : List UserStoreCall) (existing : User) :
    (UsersService.performUpdate env s id p tr existing).trace
      = tr ++ [.findByIdAndUpdate id] := by
  unfold UsersService.performUpdate
  split <;> rfl

theorem createUser_events_nil (env : FaultEnv) (s : UsersState)
    (dto : CreateUserDto) :
    (UsersService.createUser env s dto).events = [] := by
  unfold UsersService.createUser
  split
  · rfl
  · split <;> rfl

theorem updateUser_events_nil (env : FaultEnv) (s : UsersState) (id : Nat)
    (p : UserPatch) :
    (UsersService.updateUser env s id p).events = [] := by
  unfold UsersService.updateUser
  split
  · rfl
  · split
    · split
      · split
        · rfl
        · exact performUpdate_events ..
      · exact performUpdate_events ..
    · exact performUpdate_events ..

theorem deleteUser_events_nil (env : FaultEnv) (s : UsersState) (id : Nat) :
    (UsersService.deleteUser env s id).events = [] := by
  unfold UsersService.deleteUser
  split
  · rfl
  · split <;> rfl

/-- C1 counterexample: creating a post in an empty store with a failing
bus: the repository write commits (the state holds the new post), yet
the command does not succeed — it throws
`UnexpectedErrorException("Error creating post")` instead of returning
the created post, contradicting the claim that a publish failure is
never surfaced as a command failure. -/
theorem c1_publish_failure_counterexample :
    (PostsService.createPost envPubFail postS0 dtoP0).result
        = .error (.unexpected "Error creating post")
    ∧ (PostsService.createPost envPubFail postS0 dtoP0).state.posts = [postP0] :=
  ⟨rfl, rfl⟩

/-- C1 (amended): for every mutation of the posts service whose store
write succeeds but whose subsequent event publish fails, the command
fails with `Unexpected` (the publish failure is surfaced to the caller),
while the store mutation is not rolled back: the created post is
appended, the patch is applied, the deleted post is removed. -/
theorem c1_publish_failure_surfaced (s : PostsState) (dto : CreatePostDto)
    (id : Nat) (udto : UpdatePostDto) (p : Post)
    (hp : repoFindOne s id = some p) :
    ((PostsService.createPost envPubFail s dto).result
        = .error (.unexpected "Error creating post")
      ∧ (PostsService.createPost envPubFail s dto).state.posts.length
        = s.posts.length + 1)
    ∧ ((PostsService.updatePost envPubFail s id udto).result
        = .error (.unexpected "Error updating post")
      ∧ (PostsService.updatePost envPubFail s id udto).state.posts
        = s.posts.map (fun q => if q.id == id then PostsService.applyPostPatch p udto else q))
    ∧ ((PostsService.deletePost envPubFail s id).result
        = .error (.unexpected "Error deleting post")
      ∧ (PostsService.deletePost envPubFail s id).state.posts
        = s.posts.filter (fun q => q.id != id)) := by
  refine ⟨⟨?_, ?_⟩, ⟨?_, ?_⟩, ⟨?_, ?_⟩⟩ <;>
    simp [PostsService.createPost, PostsService.updatePost,
      PostsService.deletePost, envPubFail, hp]

theorem c1_publish_failure_surfaced_witness :
    (PostsService.updatePost envPubFail postS1 1 ⟨some "t2", none⟩).result
      = .error (.unexpected "Error updating post") :=
  (c1_publish_failure_surfaced postS1 dtoP0 1 ⟨some "t2", none⟩ postP0 rfl).2.1.1

/-- C2 counterexample: a successful user create publishes no event at
all — the users service holds no event publisher — contradicting the
claim that it publishes `user_created` with the created entity. -/
theorem c2_user_create_publishes_nothing :
    ((UsersService.createUser envOk userS0 dtoU0).result).isOk = true
    ∧ (UsersService.createUser envOk userS0 dtoU0).events = [] :=
  ⟨rfl, rfl⟩

/-- C2 (amended): for every successful posts mutation exactly one event
of the expected name is published, with the post-mutation entity (or the
identifier, for delete) as payload; the users service publishes no
events for any mutation — in particular a successful user create
publishes nothing. -/
theorem c2_event_after_write (env : FaultEnv) (s : PostsState)
    (dto : CreatePostDto) (id : Nat) (udto : UpdatePostDto)
    (us : UsersState) (cdto : CreateUserDto) (uid : Nat) (up : UserPatch) :
    (∀ p, (PostsService.createPost env s dto).result = .ok p →
        (PostsService.createPost env s dto).events = [("post_created", .entity p)])
    ∧ (∀ p, (PostsService.updatePost env s id udto).result = .ok p →
        (PostsService.updatePost env s id udto).events = [("post_updated", .entity p)])
    ∧ ((PostsService.deletePost env s id).result = .ok () →
        (PostsService.deletePost env s id).events = [("post_deleted", .idOnly id)])
    ∧ (UsersService.createUser env us cdto).events = []
    ∧ (UsersService.updateUser env us uid up).events = []
    ∧ (UsersService.deleteUser env us uid).events = [] := by
  obtain ⟨w, f⟩ := env
  refine ⟨?_, ?_, ?_, createUser_events_nil .., updateUser_events_nil ..,
    deleteUser_events_nil ..⟩
  · intro p hp
    cases w <;> cases f <;>
      simp_all [PostsService.createPost]
  · intro p hp
    rcases h : repoFindOne s id with _ | q <;> cases w <;> cases f <;>
      simp_all [PostsService.updatePost]
  · intro hp
    rcases h : repoFindOne s id with _ | q <;> cases w <;> cases f <;>
      simp_all [PostsService.deletePost]

theorem c2_event_after_write_witness :
    (PostsService.createPost envOk postS0 dtoP0).events
      = [("post_created", .entity postP0)] :=
  (c2_event_after_write envOk postS0 dtoP0 1 ⟨none, none⟩ userS0 dtoU0 1
    ⟨none, none, none, none, none⟩).1 postP0 rfl

/-- C3: when the store write fails — whatever the bus does — no event is
published by any create/update/delete of either service: the pipeline
never announces a change that did not durably happen. -/
theorem c3_no_event_on_store_failure (pf : Bool) (s : PostsState)
    (dto : CreatePostDto) (id : Nat) (udto : UpdatePostDto)
    (us : UsersState) (cdto : CreateUserDto) (uid : Nat) (up : UserPatch) :
    (PostsService.createPost ⟨true, pf⟩ s dto).events = []
    ∧ (PostsService.updatePost ⟨true, pf⟩ s id udto).events = []
    ∧ (PostsService.deletePost ⟨true, pf⟩ s id).events = []
    ∧ (UsersService.createUser ⟨true, pf⟩ us cdto).events = []
    ∧ (UsersService.updateUser ⟨true, pf⟩ us uid up).events = []
    ∧ (UsersService.deleteUser ⟨true, pf⟩ us uid).events = [] := by
  refine ⟨rfl, ?_, ?_, createUser_events_nil .., updateUser_events_nil ..,
    deleteUser_events_nil ..⟩
  · rcases h : repoFindOne s id with _ | q <;>
      simp [PostsService.updatePost, h]
  · rcases h : repoFindOne s id with _ | q <;>
      simp [PostsService.deletePost, h]

/-- C4 counterexample: deleting a user whose identifier is absent fails
with `NotFound`, but the store's write path is invoked: the service
issues `findByIdAndDelete` — a write-path call — and only then inspects
its null result, contradicting the claim that the existence check fails
before any write is attempted. -/
theorem c4_delete_user_write_path_counterexample :
    (UsersService.deleteUser envOk userS0 1).result
        = .error (.notFound "User not found")
    ∧ (UsersService.deleteUser envOk userS0 1).trace.filter
        UserStoreCall.isWrite = [.findByIdAndDelete 1] :=
  ⟨rfl, rfl⟩

/-- C4 (amended): for every identifier absent from the store, user
update and post update/delete fail with `NotFound` without issuing any
write-path call; user delete also fails with `NotFound` (when the store
itself does not fail), but does so by issuing the single combined
write-path call `findByIdAndDelete` and checking its result, rather
than by a read-before-write existence check. -/
theorem c4_absent_id_not_found (env : FaultEnv)
    (henv : env.storeWriteFails = false)
    (us : UsersState) (uid : Nat) (hu : findById us uid = none)
    (up : UserPatch) (s : PostsState) (pid : Nat)
    (hp : repoFindOne s pid = none) (udto : UpdatePostDto) :
    ((UsersService.updateUser env us uid up).result
        = .error (.notFound "User not found")
      ∧ (UsersService.updateUser env us uid up).trace.filter
          UserStoreCall.isWrite = [])
    ∧ ((PostsService.updatePost env s pid udto).result
        = .error (.notFound "Post not found")
      ∧ (PostsService.updatePost env s pid udto).trace.filter
          PostStoreCall.isWrite = [])
    ∧ ((PostsService.deletePost env s pid).result
        = .error (.notFound "Post")
      ∧ (PostsService.deletePost env s pid).trace.filter
          PostStoreCall.isWrite = [])
    ∧ ((UsersService.deleteUser env us uid).result
        = .error (.notFound "User not found")
      ∧ (UsersService.deleteUser env us uid).trace
          = [.findByIdAndDelete uid]) := by
  refine ⟨⟨?_, ?_⟩, ⟨?_, ?_⟩, ⟨?_, ?_⟩, ⟨?_, ?_⟩⟩ <;>
    simp [UsersService.updateUser, UsersService.deleteUser,
      PostsService.updatePost, PostsService.deletePost, hu, hp, henv,
      UserStoreCall.isWrite, PostStoreCall.isWrite]

theorem c4_absent_id_not_found_witness :
    (UsersService.updateUser envOk userS0 1
        ⟨none, none, none, none, none⟩).result
      = .error (.notFound "User not found")
    ∧ (PostsService.deletePost envOk postS0 1).trace.filter
        PostStoreCall.isWrite = [] :=
  ⟨(c4_absent_id_not_found envOk rfl userS0 1 rfl
      ⟨none, none, none, none, none⟩ postS0 1 rfl ⟨none, none⟩).1.1,
   (c4_absent_id_not_found envOk rfl userS0 1 rfl
      ⟨none, none, none, none, none⟩ postS0 1 rfl ⟨none, none⟩).2.2.1.2⟩

def patchEmptyEmail : UserPatch := ⟨some "", none, none, none, none⟩

/-- C5 counterexample: the store holds a user (id 2) whose email is the
empty string; updating user 1 with a patch that sets email to that same
empty string — a value held by a different entity — does not fail with
`Conflict`/`InvalidInput`: because the empty string is falsy, the guard
`updateUserDto.email && updateUserDto.email !== existingUser.email`
skips the uniqueness lookup, the write is performed, and the command
succeeds. -/
theorem c5_empty_email_bypass_counterexample :
    ((findByEmail usAB "").isSome = true ∧ uB.email = "" ∧ uB.id ≠ 1)
    ∧ (UsersService.updateUser envOk usAB 1 patchEmptyEmail).result
        = .ok ⟨1, "", bcryptHash "p", .user, true, false⟩
    ∧ (UsersService.updateUser envOk usAB 1 patchEmptyEmail).trace.filter
        UserStoreCall.isWrite ≠ [] := by
  refine ⟨⟨rfl, rfl, by decide⟩, rfl, by decide⟩

/-- C5 (amended): a create whose email is already held in the store
fails with `InvalidInput("Email already exists")` with no write-path
call and no event; an update that changes the email to a *non-empty*
value, different from the target's current email and held in the store,
likewise fails with `InvalidInput` before any write and with no event
(an empty-string email bypasses the check because it is falsy). -/
theorem c5_uniqueness_conflict (env : FaultEnv)
    (s : UsersState) (cdto : CreateUserDto)
    (hdup : (findByEmail s cdto.email).isSome = true)
    (s2 : UsersState) (id : Nat) (u : User) (up : UserPatch) (e : String)
    (hfind : findById s2 id = some u) (hmail : up.email = some e)
    (hne : e ≠ "") (hdiff : e ≠ u.email)
    (hheld : (findByEmail s2 e).isSome = true) :
    ((UsersService.createUser env s cdto).result
        = .error (.invalidInput "Email already exists")
      ∧ (UsersService.createUser env s cdto).trace.filter
          UserStoreCall.isWrite = []
      ∧ (UsersService.createUser env s cdto).events = [])
    ∧ ((UsersService.updateUser env s2 id up).result
        = .error (.invalidInput "Email already exists")
      ∧ (UsersService.updateUser env s2 id up).trace.filter
          UserStoreCall.isWrite = []
      ∧ (UsersService.updateUser env s2 id up).events = []) := by
  rw [Option.isSome_iff_exists] at hdup hheld
  obtain ⟨v, hv⟩ := hdup
  obtain ⟨w, hw⟩ := hheld
  refine ⟨⟨?_, ?_, ?_⟩, ⟨?_, ?_, ?_⟩⟩ <;>
    simp [UsersService.createUser, UsersService.updateUser, hv, hw, hfind,
      hmail, hne, hdiff, UserStoreCall.isWrite]

theorem c5_uniqueness_conflict_witness :
    (UsersService.createUser envOk usAB dtoU0).result
        = .error (.invalidInput "Email already exists")
    ∧ (UsersService.updateUser envOk usAB 2
          ⟨some "a@x.com", none, none, none, none⟩).result
        = .error (.invalidInput "Email already exists") :=
  ⟨(c5_uniqueness_conflict envOk usAB dtoU0 rfl usAB 2 uB
      ⟨some "a@x.com", none, none, none, none⟩ "a@x.com" rfl rfl
      (by decide) (by decide) rfl).1.1,
   (c5_uniqueness_conflict envOk usAB dtoU0 rfl usAB 2 uB
      ⟨some "a@x.com", none, none, none, none⟩ "a@x.com" rfl rfl
      (by decide) (by decide) rfl).2.1⟩

def patchPw : UserPatch := ⟨none, some "p", none, none, none⟩

/-- C6: the code is wrong on the update path.  Create hashes the
password (and the hash is never the plaintext), but `updateUser` applies
`$set: updateUserDto` with no hashing, so updating a user with a patch
containing the plaintext password `"p"` stores `"p"` verbatim; the
service then contradicts its own credential validation: the password
just set no longer validates, because `bcrypt.compare` expects a stored
hash. -/
theorem c6_plaintext_password_on_update :
    ((UsersService.createUser envOk userS0 dtoU0).result
        = .ok ⟨1, "a@x.com", bcryptHash "p", .user, true, false⟩
      ∧ bcryptHash "p" ≠ "p")
    ∧ (UsersService.updateUser envOk usA 1 patchPw).result
        = .ok ⟨1, "a@x.com", "p", .user, true, false⟩
    ∧ (UsersService.updateUser envOk usA 1 patchPw).state.users
        = [⟨1, "a@x.com", "p", .user, true, false⟩]
    ∧ UsersService.validateUserCredentials
        (UsersService.updateUser envOk usA 1 patchPw).state "a@x.com" "p"
        = .error (.invalidInput "Invalid credentials") := by
  refine ⟨⟨rfl, by decide⟩, rfl, rfl, rfl⟩

/-- C7: validating a correct email/password pair (the stored password is
the hash of the supplied one) returns the entity; a wrong password for
an existing identity and a non-existent identity both produce the very
same `InvalidInputException("Invalid credentials")`, so the caller
cannot distinguish whether the identity exists. -/
theorem c7_credential_check (s : UsersState) (email pw : String) :
    (∀ u, findByEmail s email = some u → u.password = bcryptHash pw →
        UsersService.validateUserCredentials s email pw = .ok u)
    ∧ (∀ u, findByEmail s email = some u → bcryptCompare pw u.password = false →
        UsersService.validateUserCredentials s email pw
          = .error (.invalidInput "Invalid credentials"))
    ∧ (findByEmail s email = none →
        UsersService.validateUserCredentials s email pw
          = .error (.invalidInput "Invalid credentials")) := by
  refine ⟨?_, ?_, ?_⟩
  · intro u hu hpw
    simp [UsersService.validateUserCredentials, hu, bcryptCompare, hpw]
  · intro u hu hpw
    simp [UsersService.validateUserCredentials, hu, hpw]
  · intro h
    simp [UsersService.validateUserCredentials, h]

theorem c7_credential_check_witness :
    UsersService.validateUserCredentials usA "a@x.com" "p" = .ok uA
    ∧ UsersService.validateUserCredentials usA "a@x.com" "wrong"
        = .error (.invalidInput "Invalid credentials")
    ∧ UsersService.validateUserCredentials usA "ghost@x.com" "p"
        = .error (.invalidInput "Invalid credentials") :=
  ⟨(c7_credential_check usA "a@x.com" "p").1 uA rfl rfl,
   (c7_credential_check usA "a@x.com" "wrong").2.1 uA rfl (by decide),
   (c7_credential_check usA "ghost@x.com" "p").2.2 rfl⟩

/-- C8 counterexample: reading a post by an identifier absent from the
store does not fail with `NotFound` — `findPostById` returns the
repository's absence value as a success, with no translation to
`ResourceNotFoundException`, contradicting the claim that a read-one
never returns an absent value as a success. -/
theorem c8_post_read_absent_counterexample :
    repoFindOne postS0 1 = none
    ∧ PostsService.findPostById postS0 1 = .ok none :=
  ⟨rfl, rfl⟩

/-- C8 (amended): for an identifier absent from the store, the users
read-one translates the absence into `NotFound`, but the posts read-one
passes the store's absence value through as a successful result. -/
theorem c8_read_one_not_found (us : UsersState) (uid : Nat)
    (hu : findById us uid = none) (s : PostsState) (pid : Nat)
    (hp : repoFindOne s pid = none) :
    UsersService.findUserById us uid = .error (.notFound "User not found")
    ∧ PostsService.findPostById s pid = .ok none := by
  constructor
  · simp [UsersService.findUserById, hu]
  · simp [PostsService.findPostById, hp]

theorem c8_read_one_not_found_witness :
    UsersService.findUserById userS0 1 = .error (.notFound "User not found") :=
  (c8_read_one_not_found userS0 1 rfl postS0 1 rfl).1

/-- C9: a successful user create defaults an omitted role to `USER`, an
omitted isActive to `true`, and an omitted isEmailVerified to `false`,
while explicitly supplied values for those fields are stored
unchanged. -/
theorem c9_create_user_defaults (env : FaultEnv) (s : UsersState)
    (dto : CreateUserDto) (hfree : findByEmail s dto.email = none)
    (hw : env.storeWriteFails = false) :
    ∃ u, (UsersService.createUser env s dto).result = .ok u
      ∧ (dto.role = none → u.role = UserRole.user)
      ∧ (∀ r, dto.role = some r → u.role = r)
      ∧ (dto.isActive = none → u.isActive = true)
      ∧ (∀ b, dto.isActive = some b → u.isActive = b)
      ∧ (dto.isEmailVerified = none → u.isEmailVerified = false)
      ∧ (∀ b, dto.isEmailVerified = some b → u.isEmailVerified = b) := by
  refine ⟨{ id := s.nextId, email := dto.email,
            password := bcryptHash dto.password,
            role := dto.role.getD UserRole.user,
            isActive := dto.isActive.getD true,
            isEmailVerified := dto.isEmailVerified.getD false },
          ?_, ?_, ?_, ?_, ?_, ?_, ?_⟩
  · simp [UsersService.createUser, hfree, hw]
  all_goals
    first
      | (intro h; simp [h])
      | (intro r h; simp [h])

theorem c9_create_user_defaults_witness :
    ∃ u, (UsersService.createUser envOk userS0 dtoU0).result = .ok u
      ∧ (dtoU0.role = none → u.role = UserRole.user)
      ∧ (∀ r, dtoU0.role = some r → u.role = r)
      ∧ (dtoU0.isActive = none → u.isActive = true)
      ∧ (∀ b, dtoU0.isActive = some b → u.isActive = b)
      ∧ (dtoU0.isEmailVerified = none → u.isEmailVerified = false)
      ∧ (∀ b, dtoU0.isEmailVerified = some b → u.isEmailVerified = b) :=
  c9_create_user_defaults envOk userS0 dtoU0 rfl rfl

/-- C10: an update whose patch sets email to the target's own current
email skips the uniqueness lookup entirely — no `findOne({email})` call
appears in the trace — and succeeds without `Conflict`; conversely, any
uniqueness lookup issued by `updateUser` is for an email that differs
from the target's current one. -/
theorem c10_self_email_update (s : UsersState) (id : Nat) (u : User)
    (up : UserPatch) (hfind : findById s id = some u)
    (hself : up.email = some u.email) :
    (UsersService.updateUser envOk s id up).result
        = .ok (UsersService.applyPatch u up)
    ∧ (∀ e, UserStoreCall.findOneByEmail e ∉
        (UsersService.updateUser envOk s id up).trace)
    ∧ (∀ env2 up2 e, UserStoreCall.findOneByEmail e ∈
          (UsersService.updateUser env2 s id up2).trace →
        up2.email = some e ∧ e ≠ u.email) := by
  refine ⟨?_, ?_, ?_⟩
  · simp [UsersService.updateUser, hfind, hself, UsersService.performUpdate,
      envOk]
  · intro e
    simp [UsersService.updateUser, hfind, hself, UsersService.performUpdate,
      envOk]
  · intro env2 up2 e hmem
    rcases h2 : up2.email with _ | e2
    · simp [UsersService.updateUser, hfind, h2, performUpdate_trace] at hmem
    · by_cases hc : (e2 != "" && e2 != u.email) = true
      · have he : e = e2 := by
          rcases h3 : findByEmail s e2 with _ | w <;>
            simp [UsersService.updateUser, hfind, h2, hc, h3,
              performUpdate_trace] at hmem <;>
            exact hmem
        subst he
        simp only [Bool.and_eq_true, bne_iff_ne, ne_eq] at hc
        exact ⟨rfl, hc.2⟩
      · rw [Bool.not_eq_true] at hc
        simp [UsersService.updateUser, hfind, h2, hc,
          performUpdate_trace] at hmem

theorem c10_self_email_update_witness :
    (UsersService.updateUser envOk usA 1
        ⟨some "a@x.com", none, none, none, none⟩).result
      = .ok (UsersService.applyPatch uA ⟨some "a@x.com", none, none, none, none⟩)
    ∧ UserStoreCall.findOneByEmail "a@x.com" ∉
        (UsersService.updateUser envOk usA 1
          ⟨some "a@x.com", none, none, none, none⟩).trace :=
  ⟨(c10_self_email_update usA 1 uA ⟨some "a@x.com", none, none, none, none⟩
      rfl rfl).1,
   (c10_self_email_update usA 1 uA ⟨some "a@x.com", none, none, none, none⟩
      rfl rfl).2.1 "a@x.com"⟩

end BlogsMS
